import Mathlib

/-!
# fifoproc: a FIFO behind a /proc entry

A verification development for `src/fifoproc.c`.

* The circular buffer (`cbuffer.h`, `cbuffer.c`) is not among the sources; it is
  modelled from the specification (section 3 and 4.1).
* The four file operations `fifoproc_open`, `fifoproc_release`, `fifoproc_read`
  and `fifoproc_write` are embedded statement by statement as a step function
  on a shared state (`Fifo`) and a per-caller state (`Thread`): one step is one
  statement of the C source that touches shared state.
* Line 160 of `fifoproc_read` is executed after the wake of line 153 and before
  the re-acquisition of `mtx` at line 166: its two operands are two steps.
* Lines 172 and 234 are executed whatever the buffer holds, as in the source.
* Kernel semaphores are counters: `down` takes one unit or blocks,
  `down_interruptible` may in addition be interrupted while it is blocked,
  `up` adds one unit.
* The `int` counters are unbounded integers and the semaphore counts unbounded
  naturals: they coincide with the machine values as long as these stay inside
  the 32-bit range, which all the schedules below do.
-/

namespace Fifoproc

/-! ## Circular buffer -/

/-- One `char`. -/
abbrev Byte := Fin 256

/-- Modelled from the spec: `cbuffer_t` of the missing `cbuffer.h`. Section 3:
a fixed `capacity`, `data` (contiguous storage of `capacity` bytes), indices
`head` and `tail` modulo `capacity`, and `count`, the number of valid bytes.
`head` is the index of the oldest byte, `tail` the index the next byte goes to. -/
structure cbuffer_t where
  capacity : Nat
  data : List Byte
  head : Nat
  tail : Nat
  count : Nat
  deriving DecidableEq, Repr

/-- Modelled from the spec: `create(capacity)` of the missing `cbuffer.c`:
an empty buffer of the given capacity. -/
def create_cbuffer_t (capacity : Nat) : cbuffer_t :=
  { capacity := capacity, data := List.replicate capacity 0, head := 0, tail := 0, count := 0 }

/-- Modelled from the spec: `isEmpty()` of the missing `cbuffer.c`. -/
def is_empty_cbuffer_t (c : cbuffer_t) : Bool :=
  c.count == 0

/-- Modelled from the spec: `size()` of the missing `cbuffer.c`. -/
def size_cbuffer_t (c : cbuffer_t) : Nat :=
  c.count

/-- Modelled from the spec: `freeSpace() = capacity - size()` of the missing
`cbuffer.c`. -/
def nr_gaps_cbuffer_t (c : cbuffer_t) : Nat :=
  c.capacity - size_cbuffer_t c

/-- Modelled from the spec: `clear()` of the missing `cbuffer.c`: count reset
to 0, indices reset. -/
def clear_cbuffer_t (c : cbuffer_t) : cbuffer_t :=
  { c with head := 0, tail := 0, count := 0 }

/-- Modelled from the spec: storing one byte at `tail`, the unit of work of
`insert` in the missing `cbuffer.c`; wrap-around by modulo arithmetic. -/
def put_byte (c : cbuffer_t) (b : Byte) : cbuffer_t :=
  { c with data := c.data.set c.tail b, tail := (c.tail + 1) % c.capacity, count := c.count + 1 }

/-- Modelled from the spec: taking the byte at `head`, the unit of work of
`remove` in the missing `cbuffer.c`; wrap-around by modulo arithmetic. -/
def take_byte (c : cbuffer_t) : Byte × cbuffer_t :=
  (c.data.getD c.head 0, { c with head := (c.head + 1) % c.capacity, count := c.count - 1 })

/-- Modelled from the spec: `n` successive `take_byte`s. -/
def take_bytes : Nat → cbuffer_t → List Byte × cbuffer_t
  | 0, c => ([], c)
  | n + 1, c => ((take_byte c).1 :: (take_bytes n (take_byte c).2).1, (take_bytes n (take_byte c).2).2)

/-- Modelled from the spec: `insert(bytes, n)` of the missing `cbuffer.c`: the
first `n` bytes of `items` go in one after the other. Within the contract (`n`
at most the free space) exactly `n` bytes are transferred. The spec calls a call
outside the contract a programming error with undefined effect, not a runtime
failure: the model performs the `n` single steps all the same, so that the
caller goes on as the C code does; no statement below says what the buffer holds
after such a call. -/
def insert_items_cbuffer_t (c : cbuffer_t) (items : List Byte) (n : Nat) : cbuffer_t :=
  (items.take n).foldl put_byte c

/-- Modelled from the spec: `remove(outBuffer, n)` of the missing `cbuffer.c`:
the bytes handed out and the buffer left. Within the contract (`n` at most the
current size) exactly `n` bytes are transferred. The spec calls a call outside
the contract a programming error with undefined effect, not a runtime failure:
the model performs the `n` single steps all the same, so that the caller goes on
as the C code does; no statement below says what such a call hands out. -/
def remove_items_cbuffer_t (c : cbuffer_t) (n : Nat) : List Byte × cbuffer_t :=
  take_bytes n c

/-- The bytes a buffer holds, oldest first. -/
def contents (c : cbuffer_t) : List Byte :=
  (List.range c.count).map (fun i => c.data.getD ((c.head + i) % c.capacity) 0)

/-- Representation invariant of the ring. -/
structure WF (c : cbuffer_t) : Prop where
  cap_pos : 0 < c.capacity
  len : c.data.length = c.capacity
  head_lt : c.head < c.capacity
  tail_eq : c.tail = (c.head + c.count) % c.capacity
  count_le : c.count ≤ c.capacity

/-! ## Shared state and semaphores -/

/-- `MAX_ITEMS_CBUFFER` (line 13). -/
def MAX_ITEMS_CBUFFER : Nat := 50

/-- `MAX_CHARS_KBUF` (line 14). -/
def MAX_CHARS_KBUF : Nat := 50

/-- `EINTR` of `asm-generic/errno-base.h`. -/
def EINTR : Int := 4

/-- `ENOSPC` of `asm-generic/errno-base.h`. -/
def ENOSPC : Int := 28

/-- `EPIPE` of `asm-generic/errno-base.h`. -/
def EPIPE : Int := 32

/-- The module's global variables (lines 21-28). A semaphore is its count. -/
structure Fifo where
  cbuffer : cbuffer_t
  prod_count : Int
  cons_count : Int
  mtx : Nat
  sem_prod : Nat
  sem_cons : Nat
  nr_prod_waiting : Int
  nr_cons_waiting : Int
  deriving DecidableEq, Repr

/-- State after `init_fifoproc_module` (lines 261-284): a buffer of
`MAX_ITEMS_CBUFFER` bytes, `sema_init(&sem_prod, 0)`, `sema_init(&sem_cons, 0)`,
`sema_init(&mtx, 1)`, and the counters at their initialisers. -/
def init_fifoproc_module : Fifo :=
  { cbuffer := create_cbuffer_t MAX_ITEMS_CBUFFER, prod_count := 0, cons_count := 0, mtx := 1,
    sem_prod := 0, sem_cons := 0, nr_prod_waiting := 0, nr_cons_waiting := 0 }

/-- Outcome of `down_interruptible`. -/
inductive DownResult where
  | acquired (count : Nat)
  | interrupted
  | blocked
  deriving DecidableEq, Repr

/-- Kernel `down_interruptible`: takes a unit when the count is positive; with
the count at 0 the caller sleeps, and a signal (`sig`) ends the sleep with a
non-zero result. -/
def down_interruptible (count : Nat) (sig : Bool) : DownResult :=
  if 0 < count then .acquired (count - 1) else if sig then .interrupted else .blocked

/-- Kernel `down`: takes a unit when the count is positive, sleeps (`none`)
otherwise; signals do not end the sleep. -/
def down (count : Nat) : Option Nat :=
  if 0 < count then some (count - 1) else none

/-- Kernel `up`. -/
def up (count : Nat) : Nat :=
  count + 1

/-! ## The callers -/

/-- Program points of the four file operations; the numbers are lines of
`src/fifoproc.c`. In `fifoproc_open` and `fifoproc_release` the flag `rd`
(`file->f_mode & FMODE_READ`) selects the branch. -/
inductive Pc where
  /-- Not inside a call. -/
  | idle
  /-- The call has returned. -/
  | ret
  /-- Line 33 `down_interruptible(&mtx)`. -/
  | openLock
  /-- Line 39 `cons_count++` / 66 `prod_count++`. -/
  | openInc
  /-- Line 41-42 / 68-69 loop test and decrement of the peer waiting counter. -/
  | openWake
  /-- Line 43 `up(&sem_prod)` / 70 `up(&sem_cons)`. -/
  | openWakeUp
  /-- Line 46-47 / 73-74 loop test and increment of the own waiting counter. -/
  | openTest
  /-- Line 48 / 75 `up(&mtx)`. -/
  | openRelease
  /-- Line 49 `down_interruptible(&sem_cons)` / 76 `down_interruptible(&sem_prod)`. -/
  | openWait
  /-- Line 50 / 77 `down(&mtx)`. -/
  | openIntrLock1
  /-- Line 51 `nr_cons_waiting--` / 78 `nr_prod_waiting--`. -/
  | openIntrDecWaiting
  /-- Line 52 / 79 `up(&mtx)`. -/
  | openIntrUnlock1
  /-- Line 53 / 80 `down(&mtx)`. -/
  | openIntrLock2
  /-- Line 54 `cons_count--` / 81 `prod_count--`. -/
  | openIntrDecCount
  /-- Line 55-56 / 82-83 `up(&mtx); return -EINTR`. -/
  | openIntrUnlock2
  /-- Line 58 / 85 `down_interruptible(&mtx)`. -/
  | openRelock
  /-- Line 59 / 86 `down(&mtx)`. -/
  | openRelockIntrLock
  /-- Line 60 `cons_count--` / 87 `prod_count--`. -/
  | openRelockIntrDec
  /-- Line 61 / 88 `up(&mtx)`. -/
  | openRelockIntrUnlock
  /-- Line 93-95 `up(&mtx); return 0`. -/
  | openUnlock
  /-- Line 100 `down_interruptible(&mtx)`. -/
  | relLock
  /-- Line 105 `cons_count--` / 114 `prod_count--`. -/
  | relDec
  /-- Line 107 `if (cons_count == 0)`. -/
  | relTest
  /-- Line 108-109 loop test and `nr_prod_waiting--`. -/
  | relWake
  /-- Line 110 `up(&sem_prod)`. -/
  | relWakeUp
  /-- Line 117-119 `if (!(cons_count || prod_count)) clear_cbuffer_t(cbuffer)`. -/
  | relClear
  /-- Line 121-123 `up(&mtx); return 0`. -/
  | relUnlock
  /-- Line 130-131 the tests on `*off` and `len`. -/
  | readEntry
  /-- Line 134 `down_interruptible(&mtx)`. -/
  | readLock
  /-- Line 139 `if (prod_count == 0 && is_empty_cbuffer_t(cbuffer))`. -/
  | readEof0
  /-- Line 140-141 / 161-162 `up(&mtx); return 0`. -/
  | readEofUnlock
  /-- Line 145-147 loop test and `nr_cons_waiting++`. -/
  | readTest
  /-- Line 150 `up(&mtx)`. -/
  | readRelease
  /-- Line 153 `down_interruptible(&sem_cons)`. -/
  | readWait
  /-- Line 154 `down(&mtx)`. -/
  | readIntrLock
  /-- Line 155 `nr_cons_waiting--`. -/
  | readIntrDec
  /-- Line 156-157 `up(&mtx); return -EINTR`. -/
  | readIntrUnlock
  /-- Line 160, first operand: `prod_count == 0`. -/
  | readEof1
  /-- Line 160, second operand: `is_empty_cbuffer_t(cbuffer)`. -/
  | readEof1Empty
  /-- Line 166 `down_interruptible(&mtx)`. -/
  | readRelock
  /-- Line 172 `remove_items_cbuffer_t(cbuffer, kbuf, len)`. -/
  | readRemove
  /-- Line 175-176 loop test and `up(&sem_prod)`. -/
  | readWake
  /-- Line 177 `nr_prod_waiting--`. -/
  | readWakeDec
  /-- Line 181-185 `up(&mtx); len -= copy_to_user(buf, kbuf, len); return len`. -/
  | readUnlock
  /-- Line 192-195 the tests on `*off` and `len`, and `copy_from_user`. -/
  | writeEntry
  /-- Line 198 `down_interruptible(&mtx)`. -/
  | writeLock
  /-- Line 201 `if (cons_count == 0)`. -/
  | writePipe0
  /-- Line 202-203 / 223-224 `up(&mtx); return -EPIPE`. -/
  | writePipeUnlock
  /-- Line 207-209 loop test and `nr_prod_waiting++`. -/
  | writeTest
  /-- Line 212 `up(&mtx)`. -/
  | writeRelease
  /-- Line 215 `down_interruptible(&sem_prod)`. -/
  | writeWait
  /-- Line 216 `down(&mtx)`. -/
  | writeIntrLock
  /-- Line 217 `nr_prod_waiting--`. -/
  | writeIntrDec
  /-- Line 218-219 `up(&mtx); return -EINTR`. -/
  | writeIntrUnlock
  /-- Line 222 `if (cons_count == 0)`. -/
  | writePipe1
  /-- Line 228 `down_interruptible(&mtx)`. -/
  | writeRelock
  /-- Line 234 `insert_items_cbuffer_t(cbuffer, kbuf, len)`. -/
  | writeInsert
  /-- Line 237-238 loop test and `up(&sem_cons)`. -/
  | writeWake
  /-- Line 239 `nr_cons_waiting--`. -/
  | writeWakeDec
  /-- Line 243-245 `up(&mtx); return len`. -/
  | writeUnlock
  deriving DecidableEq, Repr

/-- One caller: its program point, the arguments of the call, and its locals.
`rd` is `file->f_mode & FMODE_READ`, `off` is `*off`, `len` the `len`
parameter (updated in place as in the source), `ubuf` the bytes readable at
the user pointer of a write, `uroom` the number of bytes writable at the user
pointer of a read, `kbuf` the local array, `result` the value returned and
`out` the bytes that reached the user buffer of a read. -/
structure Thread where
  pc : Pc
  rd : Bool
  off : Int
  len : Nat
  ubuf : List Byte
  uroom : Nat
  kbuf : List Byte
  result : Int
  out : List Byte
  deriving DecidableEq, Repr

/-- A caller outside any call. -/
def Thread.idle : Thread :=
  { pc := .idle, rd := false, off := 0, len := 0, ubuf := [], uroom := 0, kbuf := [], result := 0,
    out := [] }

/-- Return from the current call with value `v`. -/
def Thread.leave (t : Thread) (v : Int) : Thread :=
  { t with pc := .ret, result := v }

/-- Continue at program point `p`. -/
def Thread.goto (t : Thread) (p : Pc) : Thread :=
  { t with pc := p }

/-- Entry of `fifoproc_open(inode, file)`. -/
def fifoproc_open (rd : Bool) : Thread :=
  { Thread.idle with pc := .openLock, rd := rd }

/-- Entry of `fifoproc_release(inode, file)`. -/
def fifoproc_release (rd : Bool) : Thread :=
  { Thread.idle with pc := .relLock, rd := rd }

/-- Entry of `fifoproc_read(filp, buf, len, off)`; `uroom` bytes are writable at
`buf`. -/
def fifoproc_read (uroom len : Nat) (off : Int) : Thread :=
  { Thread.idle with pc := .readEntry, off := off, len := len, uroom := uroom }

/-- Entry of `fifoproc_write(filp, buf, len, off)`; `ubuf` are the bytes readable
at `buf`. -/
def fifoproc_write (ubuf : List Byte) (len : Nat) (off : Int) : Thread :=
  { Thread.idle with pc := .writeEntry, off := off, len := len, ubuf := ubuf }

/-- One statement of the caller `t` on the shared state `g`. `sig` tells whether
a signal reaches the caller while it sleeps in a `down_interruptible`. The
result is `none` when the caller cannot move: it sleeps on a semaphore or it is
outside a call. -/
def step (g : Fifo) (t : Thread) (sig : Bool) : Option (Fifo × Thread) :=
  match t.pc with
  | .idle => none
  | .ret => none
  -- fifoproc_open
  | .openLock =>
    match down_interruptible g.mtx sig with
    | .acquired m => some ({ g with mtx := m }, t.goto .openInc)
    | .interrupted => some (g, t.leave (-EINTR))
    | .blocked => none
  | .openInc =>
    if t.rd then some ({ g with cons_count := g.cons_count + 1 }, t.goto .openWake)
    else some ({ g with prod_count := g.prod_count + 1 }, t.goto .openWake)
  | .openWake =>
    if t.rd then
      if g.nr_prod_waiting ≠ 0 then
        some ({ g with nr_prod_waiting := g.nr_prod_waiting - 1 }, t.goto .openWakeUp)
      else some (g, t.goto .openTest)
    else
      if g.nr_cons_waiting ≠ 0 then
        some ({ g with nr_cons_waiting := g.nr_cons_waiting - 1 }, t.goto .openWakeUp)
      else some (g, t.goto .openTest)
  | .openWakeUp =>
    if t.rd then some ({ g with sem_prod := up g.sem_prod }, t.goto .openWake)
    else some ({ g with sem_cons := up g.sem_cons }, t.goto .openWake)
  | .openTest =>
    if t.rd then
      if g.prod_count = 0 then
        some ({ g with nr_cons_waiting := g.nr_cons_waiting + 1 }, t.goto .openRelease)
      else some (g, t.goto .openUnlock)
    else
      if g.cons_count = 0 then
        some ({ g with nr_prod_waiting := g.nr_prod_waiting + 1 }, t.goto .openRelease)
      else some (g, t.goto .openUnlock)
  | .openRelease => some ({ g with mtx := up g.mtx }, t.goto .openWait)
  | .openWait =>
    if t.rd then
      match down_interruptible g.sem_cons sig with
      | .acquired s => some ({ g with sem_cons := s }, t.goto .openRelock)
      | .interrupted => some (g, t.goto .openIntrLock1)
      | .blocked => none
    else
      match down_interruptible g.sem_prod sig with
      | .acquired s => some ({ g with sem_prod := s }, t.goto .openRelock)
      | .interrupted => some (g, t.goto .openIntrLock1)
      | .blocked => none
  | .openIntrLock1 =>
    match down g.mtx with
    | some m => some ({ g with mtx := m }, t.goto .openIntrDecWaiting)
    | none => none
  | .openIntrDecWaiting =>
    if t.rd then some ({ g with nr_cons_waiting := g.nr_cons_waiting - 1 }, t.goto .openIntrUnlock1)
    else some ({ g with nr_prod_waiting := g.nr_prod_waiting - 1 }, t.goto .openIntrUnlock1)
  | .openIntrUnlock1 => some ({ g with mtx := up g.mtx }, t.goto .openIntrLock2)
  | .openIntrLock2 =>
    match down g.mtx with
    | some m => some ({ g with mtx := m }, t.goto .openIntrDecCount)
    | none => none
  | .openIntrDecCount =>
    if t.rd then some ({ g with cons_count := g.cons_count - 1 }, t.goto .openIntrUnlock2)
    else some ({ g with prod_count := g.prod_count - 1 }, t.goto .openIntrUnlock2)
  | .openIntrUnlock2 => some ({ g with mtx := up g.mtx }, t.leave (-EINTR))
  | .openRelock =>
    match down_interruptible g.mtx sig with
    | .acquired m => some ({ g with mtx := m }, t.goto .openTest)
    | .interrupted => some (g, t.goto .openRelockIntrLock)
    | .blocked => none
  | .openRelockIntrLock =>
    match down g.mtx with
    | some m => some ({ g with mtx := m }, t.goto .openRelockIntrDec)
    | none => none
  | .openRelockIntrDec =>
    if t.rd then some ({ g with cons_count := g.cons_count - 1 }, t.goto .openRelockIntrUnlock)
    else some ({ g with prod_count := g.prod_count - 1 }, t.goto .openRelockIntrUnlock)
  | .openRelockIntrUnlock => some ({ g with mtx := up g.mtx }, t.goto .openTest)
  | .openUnlock => some ({ g with mtx := up g.mtx }, t.leave 0)
  -- fifoproc_release
  | .relLock =>
    match down_interruptible g.mtx sig with
    | .acquired m => some ({ g with mtx := m }, t.goto .relDec)
    | .interrupted => some (g, t.leave (-EINTR))
    | .blocked => none
  | .relDec =>
    if t.rd then some ({ g with cons_count := g.cons_count - 1 }, t.goto .relTest)
    else some ({ g with prod_count := g.prod_count - 1 }, t.goto .relClear)
  | .relTest =>
    if g.cons_count = 0 then some (g, t.goto .relWake) else some (g, t.goto .relClear)
  | .relWake =>
    if g.nr_prod_waiting ≠ 0 then
      some ({ g with nr_prod_waiting := g.nr_prod_waiting - 1 }, t.goto .relWakeUp)
    else some (g, t.goto .relClear)
  | .relWakeUp => some ({ g with sem_prod := up g.sem_prod }, t.goto .relWake)
  | .relClear =>
    if ¬ (g.cons_count ≠ 0 ∨ g.prod_count ≠ 0) then
      some ({ g with cbuffer := clear_cbuffer_t g.cbuffer }, t.goto .relUnlock)
    else some (g, t.goto .relUnlock)
  | .relUnlock => some ({ g with mtx := up g.mtx }, t.leave 0)
  -- fifoproc_read
  | .readEntry =>
    if t.off > 0 then some (g, t.leave 0)
    else if t.len > MAX_CHARS_KBUF then some (g, t.leave (-ENOSPC))
    else some (g, t.goto .readLock)
  | .readLock =>
    match down_interruptible g.mtx sig with
    | .acquired m => some ({ g with mtx := m }, t.goto .readEof0)
    | .interrupted => some (g, t.leave (-EINTR))
    | .blocked => none
  | .readEof0 =>
    if g.prod_count = 0 ∧ is_empty_cbuffer_t g.cbuffer = true then some (g, t.goto .readEofUnlock)
    else some (g, t.goto .readTest)
  | .readEofUnlock => some ({ g with mtx := up g.mtx }, t.leave 0)
  | .readTest =>
    if size_cbuffer_t g.cbuffer < t.len then
      some ({ g with nr_cons_waiting := g.nr_cons_waiting + 1 }, t.goto .readRelease)
    else some (g, t.goto .readRemove)
  | .readRelease => some ({ g with mtx := up g.mtx }, t.goto .readWait)
  | .readWait =>
    match down_interruptible g.sem_cons sig with
    | .acquired s => some ({ g with sem_cons := s }, t.goto .readEof1)
    | .interrupted => some (g, t.goto .readIntrLock)
    | .blocked => none
  | .readIntrLock =>
    match down g.mtx with
    | some m => some ({ g with mtx := m }, t.goto .readIntrDec)
    | none => none
  | .readIntrDec => some ({ g with nr_cons_waiting := g.nr_cons_waiting - 1 }, t.goto .readIntrUnlock)
  | .readIntrUnlock => some ({ g with mtx := up g.mtx }, t.leave (-EINTR))
  | .readEof1 =>
    if g.prod_count = 0 then some (g, t.goto .readEof1Empty) else some (g, t.goto .readRelock)
  | .readEof1Empty =>
    if is_empty_cbuffer_t g.cbuffer = true then some (g, t.goto .readEofUnlock)
    else some (g, t.goto .readRelock)
  | .readRelock =>
    match down_interruptible g.mtx sig with
    | .acquired m => some ({ g with mtx := m }, t.goto .readTest)
    | .interrupted => some (g, t.leave (-EINTR))
    | .blocked => none
  | .readRemove =>
    some ({ g with cbuffer := (remove_items_cbuffer_t g.cbuffer t.len).2 },
      { t with pc := .readWake, kbuf := (remove_items_cbuffer_t g.cbuffer t.len).1 })
  | .readWake =>
    if g.nr_prod_waiting ≠ 0 then some ({ g with sem_prod := up g.sem_prod }, t.goto .readWakeDec)
    else some (g, t.goto .readUnlock)
  | .readWakeDec => some ({ g with nr_prod_waiting := g.nr_prod_waiting - 1 }, t.goto .readWake)
  | .readUnlock =>
    some ({ g with mtx := up g.mtx },
      { t with pc := .ret, len := min t.len t.uroom, out := t.kbuf.take (min t.len t.uroom),
               result := ((min t.len t.uroom : Nat) : Int) })
  -- fifoproc_write
  | .writeEntry =>
    if t.off > 0 then some (g, t.leave 0)
    else if t.len > MAX_CHARS_KBUF then some (g, t.leave (-ENOSPC))
    else some (g, { t with pc := .writeLock, kbuf := t.ubuf.take t.len,
                           len := min t.len t.ubuf.length })
  | .writeLock =>
    match down_interruptible g.mtx sig with
    | .acquired m => some ({ g with mtx := m }, t.goto .writePipe0)
    | .interrupted => some (g, t.leave (-EINTR))
    | .blocked => none
  | .writePipe0 =>
    if g.cons_count = 0 then some (g, t.goto .writePipeUnlock) else some (g, t.goto .writeTest)
  | .writePipeUnlock => some ({ g with mtx := up g.mtx }, t.leave (-EPIPE))
  | .writeTest =>
    if nr_gaps_cbuffer_t g.cbuffer < t.len ∧ g.cons_count > 0 then
      some ({ g with nr_prod_waiting := g.nr_prod_waiting + 1 }, t.goto .writeRelease)
    else some (g, t.goto .writeInsert)
  | .writeRelease => some ({ g with mtx := up g.mtx }, t.goto .writeWait)
  | .writeWait =>
    match down_interruptible g.sem_prod sig with
    | .acquired s => some ({ g with sem_prod := s }, t.goto .writePipe1)
    | .interrupted => some (g, t.goto .writeIntrLock)
    | .blocked => none
  | .writeIntrLock =>
    match down g.mtx with
    | some m => some ({ g with mtx := m }, t.goto .writeIntrDec)
    | none => none
  | .writeIntrDec => some ({ g with nr_prod_waiting := g.nr_prod_waiting - 1 }, t.goto .writeIntrUnlock)
  | .writeIntrUnlock => some ({ g with mtx := up g.mtx }, t.leave (-EINTR))
  | .writePipe1 =>
    if g.cons_count = 0 then some (g, t.goto .writePipeUnlock) else some (g, t.goto .writeRelock)
  | .writeRelock =>
    match down_interruptible g.mtx sig with
    | .acquired m => some ({ g with mtx := m }, t.goto .writeTest)
    | .interrupted => some (g, t.leave (-EINTR))
    | .blocked => none
  | .writeInsert =>
    some ({ g with cbuffer := insert_items_cbuffer_t g.cbuffer t.kbuf t.len }, t.goto .writeWake)
  | .writeWake =>
    if g.nr_cons_waiting ≠ 0 then some ({ g with sem_cons := up g.sem_cons }, t.goto .writeWakeDec)
    else some (g, t.goto .writeUnlock)
  | .writeWakeDec => some ({ g with nr_cons_waiting := g.nr_cons_waiting - 1 }, t.goto .writeWake)
  | .writeUnlock => some ({ g with mtx := up g.mtx }, t.leave ((t.len : Nat) : Int))

/-- A caller running alone, never signalled: up to `fuel` statements, stopping
where the caller returns or cannot move. -/
def run : Nat → Fifo → Thread → Fifo × Thread
  | 0, g, t => (g, t)
  | fuel + 1, g, t =>
    match step g t false with
    | some (g1, t1) => run fuel g1 t1
    | none => (g, t)

/-! ## Several callers -/

/-- The calls a process can make on the /proc entry. -/
inductive Call where
  | open (rd : Bool)
  | release (rd : Bool)
  | read (uroom len : Nat) (off : Int)
  | write (ubuf : List Byte) (len : Nat) (off : Int)
  deriving DecidableEq, Repr

/-- Entry state of a call. -/
def Call.start : Call → Thread
  | .open rd => fifoproc_open rd
  | .release rd => fifoproc_release rd
  | .read uroom len off => fifoproc_read uroom len off
  | .write ubuf len off => fifoproc_write ubuf len off

/-- What the scheduler can do: let caller `tid` enter a call, or let it execute
one statement (`sig`: a signal is delivered if it sleeps interruptibly). -/
inductive Act where
  | call (tid : Nat) (c : Call)
  | step (tid : Nat) (sig : Bool)
  deriving DecidableEq, Repr

/-- The module together with its callers. -/
structure Config where
  g : Fifo
  ts : List Thread
  deriving DecidableEq, Repr

/-- The loaded module and `n` callers outside any call. -/
def Config.init (n : Nat) : Config :=
  { g := init_fifoproc_module, ts := List.replicate n Thread.idle }

/-- One scheduler action; `none` when the action is not possible (the caller
does not exist, is inside a call when asked to enter one, or cannot move). -/
def Config.act (c : Config) : Act → Option Config
  | .call tid cl =>
    match c.ts.get? tid with
    | some t =>
      if t.pc = .idle ∨ t.pc = .ret then some { c with ts := c.ts.set tid cl.start } else none
    | none => none
  | .step tid sig =>
    match c.ts.get? tid with
    | some t =>
      match step c.g t sig with
      | some (g1, t1) => some { g := g1, ts := c.ts.set tid t1 }
      | none => none
    | none => none

/-- A schedule, action by action. -/
def exec : Config → List Act → Option Config
  | c, [] => some c
  | c, a :: as =>
    match c.act a with
    | some c1 => exec c1 as
    | none => none

/-- Caller `tid` executes `n` statements without being signalled. -/
def steps (tid n : Nat) : List Act :=
  List.replicate n (Act.step tid false)

/-- Program point of caller `tid`. -/
def Config.pcOf (c : Config) (tid : Nat) : Pc :=
  ((c.ts.get? tid).getD Thread.idle).pc

/-- Value returned by the last call of caller `tid`. -/
def Config.resultOf (c : Config) (tid : Nat) : Int :=
  ((c.ts.get? tid).getD Thread.idle).result

/-- Length argument of the call caller `tid` is in. -/
def Config.lenOf (c : Config) (tid : Nat) : Nat :=
  ((c.ts.get? tid).getD Thread.idle).len

/-- Callers resume one after the other, each running alone for up to `fuel`
statements. -/
def resumeAll (fuel : Nat) : Fifo → List Thread → Fifo × List Thread
  | g, [] => (g, [])
  | g, t :: ts => ((resumeAll fuel (run fuel g t).1 ts).1, (run fuel g t).2 :: (resumeAll fuel (run fuel g t).1 ts).2)

/-- One producer and one consumer open, nothing in the buffer, nobody waiting,
`mtx` free. -/
def openedChannel : Fifo :=
  { init_fifoproc_module with prod_count := 1, cons_count := 1 }

/-- Caller 0 opens for reading and sleeps at line 49; caller 1 opens for writing
and wakes it; both opens return 0. -/
def bothOpen : List Act :=
  [Act.call 0 (.open true)] ++ steps 0 5 ++ [Act.call 1 (.open false)] ++ steps 1 7 ++ steps 0 4

/-- After `bothOpen`, caller 0 reads 5 bytes from the empty buffer and sleeps at
line 153. -/
def readerBlocked : List Act :=
  bothOpen ++ [Act.call 0 (.read 5 5 0)] ++ steps 0 5

/-- The only producer (caller 1) closes. -/
def producerCloses : List Act :=
  [Act.call 1 (.release false)] ++ steps 1 4

/-- After `bothOpen`, the producer (caller 1) fills the buffer with 50 bytes,
then writes one more byte and sleeps at line 215. -/
def writerBlocked : List Act :=
  bothOpen ++ [Act.call 1 (.write (List.replicate 50 7) 50 0)] ++ steps 1 7 ++
  [Act.call 1 (.write [9] 1 0)] ++ steps 1 5

/-- A second producer (caller 2) enters `fifoproc_open` and takes `mtx` at line
33. The consumer (caller 0) calls `fifoproc_release`, sleeps on `mtx` at line
100 and is signalled there. Caller 2 finishes its open. -/
def releaseInterrupted : List Act :=
  [Act.call 2 (.open false), Act.step 2 false, Act.call 0 (.release true), Act.step 0 true] ++
  steps 2 4

/-- The shared state at the end of `writerBlocked`. -/
def writerBlockedState : Fifo :=
  ((exec (Config.init 3) writerBlocked).map (fun c => c.g)).getD init_fifoproc_module

/-- The writer asleep at line 215 at the end of `writerBlocked`. -/
def blockedWriter : Thread :=
  ((exec (Config.init 3) writerBlocked).bind (fun c => c.ts.get? 1)).getD Thread.idle

/-- Caller 0 opens for reading and sleeps at line 49. Caller 1 opens for writing
and, holding `mtx`, signals `sem_cons`. Caller 0 wakes (line 49 succeeds) and
sleeps on `mtx` at line 58. -/
def openSleepsOnMtx : List Act :=
  [Act.call 0 (.open true)] ++ steps 0 5 ++ [Act.call 1 (.open false)] ++ steps 1 5 ++
  [Act.step 0 false]

/-- A signal ends caller 0's sleep at line 58; caller 1 finishes its open;
caller 0 executes lines 59-61, falls back to the loop test of line 46 and
leaves through lines 93-95. -/
def openInterruptedOnMtx : List Act :=
  [Act.step 0 true] ++ steps 1 2 ++ steps 0 5

/-- Caller 0 closes the endpoint its open returned 0 for. -/
def consumerCloses : List Act :=
  [Act.call 0 (.release true)] ++ steps 0 5

/-- No signal anywhere. Consumers 0 and 2 and producer 1 are open. Caller 0
asks for 5 bytes and sleeps at line 153; caller 1 writes 3 bytes, which signals
`sem_cons`; caller 2 reads the 3 bytes; caller 1 closes. Caller 0 then wakes
at line 153 and takes lines 160-162. -/
def wakeAtEndOfStream : List Act :=
  bothOpen ++ [Act.call 2 (.open true)] ++ steps 2 5 ++ [Act.call 0 (.read 5 5 0)] ++ steps 0 5 ++
  [Act.call 1 (.write [1, 2, 3] 3 0)] ++ steps 1 9 ++ [Act.call 2 (.read 3 3 0)] ++ steps 2 7 ++
  [Act.call 1 (.release false)] ++ steps 1 4 ++ steps 0 4

/-- No signal anywhere. After `wakeAtEndOfStream`, callers 1 and 3 open for
writing and each starts a write of 30 bytes; both pass the test of line 207
before either inserts; then caller 1 executes line 234. -/
def twoWritersRace : List Act :=
  wakeAtEndOfStream ++ [Act.call 1 (.open false)] ++ steps 1 5 ++
  [Act.call 3 (.open false)] ++ steps 3 5 ++
  [Act.call 1 (.write (List.replicate 30 7) 30 0)] ++ steps 1 4 ++
  [Act.call 3 (.write (List.replicate 30 9) 30 0)] ++ steps 3 4 ++ steps 1 1

/-- Producer 0 and consumer 1 open; caller 0 writes 5 bytes; caller 1 closes.
Caller 2 opens for writing and sleeps at line 76. Caller 0 closes. -/
def staleSetup : List Act :=
  [Act.call 0 (.open false)] ++ steps 0 5 ++ [Act.call 1 (.open true)] ++ steps 1 7 ++ steps 0 4 ++
  [Act.call 0 (.write [1, 2, 3, 4, 5] 5 0)] ++ steps 0 7 ++
  [Act.call 1 (.release true)] ++ steps 1 6 ++
  [Act.call 2 (.open false)] ++ steps 2 5 ++
  [Act.call 0 (.release false)] ++ steps 0 4

/-- A signal ends caller 2's sleep at line 76; it executes lines 77-83. -/
def openCancelled : List Act :=
  [Act.step 2 true] ++ steps 2 6

theorem create_wf (n : Nat) (h : 0 < n) : WF (create_cbuffer_t n) := by
  constructor <;> simp [create_cbuffer_t, h]

theorem contents_length (c : cbuffer_t) : (contents c).length = c.count := by
  simp [contents]

theorem mod_ne_of_lt {h i c n : Nat} (hi : i < c) (hc : c < n) :
    (h + i) % n ≠ (h + c) % n := by
  intro e
  have h1 : Nat.ModEq n (h + i) (h + c) := e
  have h2 : Nat.ModEq n i c := Nat.ModEq.add_left_cancel' h h1
  have h3 : i % n = c % n := h2
  rw [Nat.mod_eq_of_lt (by omega), Nat.mod_eq_of_lt hc] at h3
  omega

theorem put_byte_wf (c : cbuffer_t) (b : Byte) (hw : WF c) (hc : c.count < c.capacity) :
    WF (put_byte c b) := by
  obtain ⟨h1, h2, h3, h4, h5⟩ := hw
  constructor
  · exact h1
  · simp [put_byte, h2]
  · exact h3
  · simp only [put_byte]
    rw [h4, ← Nat.add_assoc, Nat.mod_add_mod]
  · simp only [put_byte]; omega

theorem put_byte_contents (c : cbuffer_t) (b : Byte) (hw : WF c) (hc : c.count < c.capacity) :
    contents (put_byte c b) = contents c ++ [b] := by
  obtain ⟨h1, h2, h3, h4, h5⟩ := hw
  simp only [contents, put_byte, List.range_succ, List.map_append, List.map_cons, List.map_nil]
  congr 1
  · apply List.map_congr_left
    intro i hi
    rw [List.mem_range] at hi
    have hne : (c.head + i) % c.capacity ≠ c.tail := by
      rw [h4]; exact mod_ne_of_lt hi hc
    simp [List.getD_eq_getElem?_getD, List.getElem?_set, Ne.symm hne]
  · have hlt : c.tail < c.data.length := by
      rw [h2, h4]; exact Nat.mod_lt _ h1
    simp [List.getD_eq_getElem?_getD, ← h4, List.getElem?_set, hlt]

theorem take_byte_wf (c : cbuffer_t) (hw : WF c) (hc : 0 < c.count) : WF (take_byte c).2 := by
  obtain ⟨h1, h2, h3, h4, h5⟩ := hw
  constructor
  · exact h1
  · exact h2
  · exact Nat.mod_lt _ h1
  · simp only [take_byte]
    rw [h4, Nat.mod_add_mod]
    congr 1; omega
  · simp only [take_byte]; omega

theorem take_byte_contents (c : cbuffer_t) (hw : WF c) (hc : 0 < c.count) :
    contents c = (take_byte c).1 :: contents (take_byte c).2 := by
  obtain ⟨k, hk⟩ : ∃ k, c.count = k + 1 := ⟨c.count - 1, by omega⟩
  simp only [contents, take_byte, hk, List.range_succ_eq_map, List.map_cons, List.map_map,
    Nat.add_zero, Nat.add_sub_cancel]
  congr 1
  · congr 1
    exact Nat.mod_eq_of_lt hw.head_lt
  · apply List.map_congr_left
    intro i _
    simp only [Function.comp, Nat.mod_add_mod]
    congr 2; omega

theorem put_bytes_spec (items : List Byte) (c : cbuffer_t) (hw : WF c)
    (hc : c.count + items.length ≤ c.capacity) :
    WF (items.foldl put_byte c) ∧ contents (items.foldl put_byte c) = contents c ++ items ∧
      (items.foldl put_byte c).count = c.count + items.length ∧
      (items.foldl put_byte c).capacity = c.capacity := by
  induction items generalizing c with
  | nil => simp [hw]
  | cons b bs ih =>
    simp only [List.length_cons] at hc
    have hlt : c.count < c.capacity := by omega
    have hcount : (put_byte c b).count = c.count + 1 := rfl
    have hcap : (put_byte c b).capacity = c.capacity := rfl
    obtain ⟨h1, h2, h3, h4⟩ := ih (put_byte c b) (put_byte_wf c b hw hlt) (by rw [hcount, hcap]; omega)
    refine ⟨h1, ?_, ?_, ?_⟩
    · simp only [List.foldl_cons, h2, put_byte_contents c b hw hlt, List.append_assoc,
        List.singleton_append]
    · simp only [List.foldl_cons, h3, hcount, List.length_cons]; omega
    · simp only [List.foldl_cons, h4, hcap]

theorem take_bytes_spec (n : Nat) (c : cbuffer_t) (hw : WF c) (hn : n ≤ c.count) :
    WF (take_bytes n c).2 ∧ (take_bytes n c).1 = (contents c).take n ∧
      contents (take_bytes n c).2 = (contents c).drop n ∧
      (take_bytes n c).2.count = c.count - n ∧ (take_bytes n c).2.capacity = c.capacity := by
  induction n generalizing c with
  | zero => simp [take_bytes, hw]
  | succ k ih =>
    have hpos : 0 < c.count := by omega
    have hcount : (take_byte c).2.count = c.count - 1 := rfl
    have hcap : (take_byte c).2.capacity = c.capacity := rfl
    obtain ⟨h1, h2, h3, h4, h5⟩ := ih (take_byte c).2 (take_byte_wf c hw hpos) (by rw [hcount]; omega)
    refine ⟨h1, ?_, ?_, ?_, ?_⟩
    · simp only [take_bytes, h2, take_byte_contents c hw hpos, List.take_succ_cons]
    · simp only [take_bytes, h3, take_byte_contents c hw hpos, List.drop_succ_cons]
    · simp only [take_bytes, h4, hcount]; omega
    · simp only [take_bytes, h5, hcap]

/-- Ring round trip: what is inserted into an empty ring comes out unchanged and
leaves the ring empty. -/
theorem insert_remove_roundtrip (c : cbuffer_t) (b : List Byte) (hw : WF c) (he : c.count = 0)
    (hb : b.length ≤ c.capacity) :
    (remove_items_cbuffer_t (insert_items_cbuffer_t c b b.length) b.length).1 = b ∧
      (remove_items_cbuffer_t (insert_items_cbuffer_t c b b.length) b.length).2.count = 0 ∧
      (insert_items_cbuffer_t c b b.length).count = b.length := by
  obtain ⟨h1, h2, h3, _⟩ := put_bytes_spec b c hw (by omega)
  obtain ⟨_, k2, _, k4, _⟩ := take_bytes_spec b.length (b.foldl put_byte c) h1 (by omega)
  have hc0 : contents c = [] := by simp [contents, he]
  simp only [insert_items_cbuffer_t, remove_items_cbuffer_t, List.take_length]
  refine ⟨?_, ?_, ?_⟩
  · simp [k2, h2, hc0]
  · omega
  · omega

/-! ## Running a caller -/

theorem run_ret (n : Nat) (g : Fifo) (t : Thread) (h : t.pc = .ret) : run n g t = (g, t) := by
  cases n with
  | zero => rfl
  | succ k => simp [run, step, h]

theorem run_add (m n : Nat) (g : Fifo) (t : Thread) :
    run (m + n) g t = run n (run m g t).1 (run m g t).2 := by
  induction m generalizing g t with
  | zero => simp [run]
  | succ k ih =>
    rw [Nat.succ_add]
    simp only [run]
    cases h : step g t false with
    | none =>
      cases n with
      | zero => rfl
      | succ j => simp [run, h]
    | some r => exact ih r.1 r.2

theorem run_ge (m n : Nat) (g : Fifo) (t : Thread) (h : (run m g t).2.pc = .ret) (hmn : m ≤ n) :
    run n g t = run m g t := by
  obtain ⟨d, rfl⟩ := Nat.exists_eq_add_of_le hmn
  rw [run_add, run_ret d _ _ h]

theorem goto_self (t : Thread) (p : Pc) (h : t.pc = p) : t.goto p = t := by
  cases t; simp only [Thread.goto] at *; subst h; rfl

/-- The schedule `bothOpen` ends in `openedChannel`. -/
theorem bothOpen_reaches_openedChannel :
    (exec (Config.init 2) bothOpen).map (fun c => c.g) = some openedChannel := by
  decide

/-! ## Closing the last consumer -/

theorem release_drain (k n : Nat) (g : Fifo) (t : Thread) (hpc : t.pc = .relWake)
    (hk : g.nr_prod_waiting = k) :
    run (2 * k + n) g t = run n { g with nr_prod_waiting := 0, sem_prod := g.sem_prod + k } t := by
  induction k generalizing g with
  | zero =>
    cases g
    simp only [Nat.cast_zero] at hk
    subst hk
    simp
  | succ j ih =>
    have hne : g.nr_prod_waiting ≠ 0 := by rw [hk]; exact Int.natCast_ne_zero.mpr (by omega)
    have e : 2 * (j + 1) + n = (2 * j + n) + 1 + 1 := by omega
    rw [e]
    simp only [run, step, hpc, hne, ne_eq, not_false_eq_true, if_true, Thread.goto, up]
    rw [show ({ t with pc := Pc.relWake } : Thread) = t from goto_self t _ hpc]
    rw [ih _ (by simp [hk])]
    congr 1
    simp only [Fifo.mk.injEq, true_and, and_true]
    omega

theorem release_consumer_run (k : Nat) (g : Fifo) (hcons : g.cons_count = 1)
    (hw : g.nr_prod_waiting = k) (hmtx : 0 < g.mtx) :
    run (2 * k + 6) g (fifoproc_release true) =
      ({ g with cons_count := 0, nr_prod_waiting := 0, sem_prod := g.sem_prod + k,
                cbuffer := if g.prod_count = 0 then clear_cbuffer_t g.cbuffer else g.cbuffer },
        (fifoproc_release true).leave 0) := by
  have e : 2 * k + 6 = 3 + (2 * k + 3) := by omega
  rw [e, run_add]
  have h3 : run 3 g (fifoproc_release true) =
      ({ g with mtx := g.mtx - 1, cons_count := 0 }, (fifoproc_release true).goto .relWake) := by
    simp [run, step, fifoproc_release, down_interruptible, hmtx, hcons, Thread.goto]
  rw [h3]
  simp only
  rw [release_drain k 3 _ _ rfl (by simpa using hw)]
  by_cases hp : g.prod_count = 0
  · simp [run, step, fifoproc_release, Thread.goto, Thread.leave, hp, up]
    omega
  · simp [run, step, fifoproc_release, Thread.goto, Thread.leave, hp, up]
    omega

/-- Lines 100-102: a release that is signalled while it sleeps on `mtx` returns
`-EINTR` and changes nothing. -/
theorem release_interrupted (g : Fifo) (rd : Bool) (h : g.mtx = 0) :
    step g (fifoproc_release rd) true = some (g, (fifoproc_release rd).leave (-EINTR)) := by
  simp [step, fifoproc_release, down_interruptible, h]

theorem writer_resumes_broken (g : Fifo) (w : Thread) (hpc : w.pc = .writeWait)
    (hc : g.cons_count = 0) (hs : 0 < g.sem_prod) :
    run 3 g w = ({ g with sem_prod := g.sem_prod - 1, mtx := g.mtx + 1 }, w.leave (-EPIPE)) := by
  simp [run, step, hpc, down_interruptible, hs, hc, Thread.goto, Thread.leave, up]

theorem writers_resume_broken (fuel : Nat) (hf : 3 ≤ fuel) (ws : List Thread) (g : Fifo)
    (hpc : ∀ w ∈ ws, w.pc = .writeWait) (hc : g.cons_count = 0) (hs : ws.length ≤ g.sem_prod) :
    resumeAll fuel g ws =
      ({ g with sem_prod := g.sem_prod - ws.length, mtx := g.mtx + ws.length },
        ws.map (fun w => w.leave (-EPIPE))) := by
  induction ws generalizing g with
  | nil => cases g; simp [resumeAll]
  | cons w ws ih =>
    simp only [List.length_cons] at hs
    have h1 : run fuel g w =
        ({ g with sem_prod := g.sem_prod - 1, mtx := g.mtx + 1 }, w.leave (-EPIPE)) := by
      rw [run_ge 3 fuel g w _ hf]
      · exact writer_resumes_broken g w (hpc w (by simp)) hc (by omega)
      · rw [writer_resumes_broken g w (hpc w (by simp)) hc (by omega)]; rfl
    have h2 := ih { g with sem_prod := g.sem_prod - 1, mtx := g.mtx + 1 }
      (fun x hx => hpc x (by simp [hx])) hc (by simp only; omega)
    simp only [resumeAll, h1, h2, List.map_cons, List.length_cons, Prod.mk.injEq, Fifo.mk.injEq,
      true_and, and_true]
    omega

/-! ## A write that fits, a read that is served -/

theorem write_fits_run (g : Fifo) (b : List Byte) (off : Int)
    (hn50 : b.length ≤ MAX_CHARS_KBUF) (hc : g.cons_count ≠ 0)
    (hgap : b.length ≤ nr_gaps_cbuffer_t g.cbuffer)
    (hcw : g.nr_cons_waiting = 0) (hmtx : 0 < g.mtx) (hoff : off ≤ 0) :
    run 7 g (fifoproc_write b b.length off) =
      ({ g with cbuffer := insert_items_cbuffer_t g.cbuffer b b.length },
        { fifoproc_write b b.length off with pc := .ret, kbuf := b, result := b.length }) := by
  have hgap2 : ¬ nr_gaps_cbuffer_t g.cbuffer < b.length := by omega
  have hoff2 : ¬ off > 0 := by omega
  have hlen : ¬ b.length > MAX_CHARS_KBUF := by omega
  simp [run, step, fifoproc_write, hoff2, hlen, down_interruptible, hmtx, hc, hgap2, hcw,
    Thread.goto, Thread.leave, up]
  omega

theorem read_available_run (g : Fifo) (n uroom : Nat) (off : Int)
    (hn50 : n ≤ MAX_CHARS_KBUF) (hp : g.prod_count ≠ 0) (hsz : n ≤ size_cbuffer_t g.cbuffer)
    (hpw : g.nr_prod_waiting = 0) (hmtx : 0 < g.mtx) (hoff : off ≤ 0) (hroom : n ≤ uroom) :
    run 7 g (fifoproc_read uroom n off) =
      ({ g with cbuffer := (remove_items_cbuffer_t g.cbuffer n).2 },
        { fifoproc_read uroom n off with
          pc := .ret, kbuf := (remove_items_cbuffer_t g.cbuffer n).1, result := n,
          out := (remove_items_cbuffer_t g.cbuffer n).1.take n }) := by
  have hsz2 : ¬ size_cbuffer_t g.cbuffer < n := by omega
  have hoff2 : ¬ off > 0 := by omega
  have hlen : ¬ n > MAX_CHARS_KBUF := by omega
  simp [run, step, fifoproc_read, hoff2, hlen, down_interruptible, hmtx, hp, hsz2, hpw,
    Thread.goto, Thread.leave, up, Nat.min_eq_left hroom]
  omega

/-! ## What a read returns -/

/-- C7 (as amended): a read or a write with `len > MAX_CHARS_KBUF` returns in its
first statement, whatever the shared state and the other arguments, and leaves
the shared state (counters, semaphores, buffer) unchanged; the value returned is
`-ENOSPC` when `*off <= 0` and `0` when `*off > 0`. -/
theorem oversized_request_rejected (g : Fifo) (sig : Bool) (ubuf : List Byte) (uroom len : Nat)
    (off : Int) (hlen : MAX_CHARS_KBUF < len) :
    step g (fifoproc_read uroom len off) sig =
        some (g, (fifoproc_read uroom len off).leave (if off > 0 then 0 else -ENOSPC)) ∧
      step g (fifoproc_write ubuf len off) sig =
        some (g, (fifoproc_write ubuf len off).leave (if off > 0 then 0 else -ENOSPC)) := by
  constructor
  · by_cases h : off > 0 <;> simp [step, fifoproc_read, h, hlen]
  · by_cases h : off > 0 <;> simp [step, fifoproc_write, h, hlen]

/-- Witness of C7 (as amended): 51 bytes at offset 0 on the freshly loaded
module. -/
theorem oversized_request_rejected_witness :
    step init_fifoproc_module (fifoproc_read 51 51 0) false =
        some (init_fifoproc_module, (fifoproc_read 51 51 0).leave (if (0 : Int) > 0 then 0 else -ENOSPC)) ∧
      step init_fifoproc_module (fifoproc_write [] 51 0) false =
        some (init_fifoproc_module, (fifoproc_write [] 51 0).leave (if (0 : Int) > 0 then 0 else -ENOSPC)) :=
  oversized_request_rejected init_fifoproc_module false [] 51 51 0 (by decide)

/-- C7 (as stated) fails: with `*off = 1` a read and a write of 51 bytes return 0,
not `-ENOSPC` (lines 130 and 192 come before lines 131 and 193). -/
theorem oversized_request_positive_offset :
    (step init_fifoproc_module (fifoproc_read 51 51 1) false).map (fun r => (r.2.pc, r.2.result)) =
        some (Pc.ret, 0) ∧
      (step init_fifoproc_module (fifoproc_write [] 51 1) false).map (fun r => (r.2.pc, r.2.result)) =
        some (Pc.ret, 0) ∧
      (0 : Int) ≠ -ENOSPC := by
  decide

/-! ## Schedules that break the claims -/

/-- C2: the code does not wake readers when the last producer closes. After
`readerBlocked` one consumer sleeps in `fifoproc_read` on an empty buffer with
`prod_count = 1` and `nr_cons_waiting = 1`; `fifoproc_release` by the producer
returns 0 and sets `prod_count` to 0, but `nr_cons_waiting` is still 1,
`sem_cons` is still 0, and the reader still cannot move. -/
theorem release_producer_leaves_reader_asleep :
    (exec (Config.init 2) readerBlocked).map
        (fun c => (c.pcOf 0, c.g.prod_count, c.g.nr_cons_waiting, c.g.sem_cons,
          is_empty_cbuffer_t c.g.cbuffer)) = some (Pc.readWait, 1, 1, 0, true) ∧
      (exec (Config.init 2) (readerBlocked ++ producerCloses)).map
        (fun c => (c.pcOf 1, c.resultOf 1, c.pcOf 0, c.g.prod_count, c.g.nr_cons_waiting,
          c.g.sem_cons)) = some (Pc.ret, 0, Pc.readWait, 0, 1, 0) ∧
      exec (Config.init 2) (readerBlocked ++ producerCloses ++ [Act.step 0 false]) = none := by
  refine ⟨by rfl, by rfl, by rfl⟩

/-- C4: `cons_count` becomes negative. A consumer's `fifoproc_open` whose sleep
on `mtx` at line 58 is interrupted executes `cons_count--` (line 60) and still
returns 0; the `fifoproc_release` of that endpoint decrements again. -/
theorem cons_count_negative :
    (exec (Config.init 2) (openSleepsOnMtx ++ openInterruptedOnMtx)).map
        (fun c => (c.pcOf 0, c.resultOf 0, c.g.cons_count)) = some (Pc.ret, 0, 0) ∧
      (exec (Config.init 2) (openSleepsOnMtx ++ openInterruptedOnMtx ++ consumerCloses)).map
        (fun c => (c.pcOf 0, c.resultOf 0, c.g.cons_count)) = some (Pc.ret, 0, -1) := by
  decide

/-- C5: an interrupted wait on `mtx` inside `fifoproc_open` (line 58) does not
make the call return `-EINTR`. After `openSleepsOnMtx` caller 0 sleeps at line
58 with `mtx = 0`; the signal takes it through lines 59-61 and back into the
loop, and the call returns 0. -/
theorem open_interrupted_on_mtx_returns_zero :
    (exec (Config.init 2) openSleepsOnMtx).map (fun c => (c.pcOf 0, c.g.mtx)) =
        some (Pc.openRelock, 0) ∧
      (exec (Config.init 2) (openSleepsOnMtx ++ [Act.step 0 true])).map (fun c => c.pcOf 0) =
        some Pc.openRelockIntrLock ∧
      (exec (Config.init 2) (openSleepsOnMtx ++ openInterruptedOnMtx)).map
        (fun c => (c.pcOf 0, c.resultOf 0)) = some (Pc.ret, 0) ∧
      (0 : Int) ≠ -EINTR := by
  decide

/-- C8: both counts at 0 with bytes left in the buffer. After `staleSetup` there
is one producer count left, held by a caller asleep in `fifoproc_open`, and 5
bytes in the buffer; cancelling that open executes `prod_count--` (line 81),
which leaves both counts at 0, and nothing clears the buffer. -/
theorem idle_channel_with_stale_bytes :
    (exec (Config.init 3) staleSetup).map
        (fun c => (c.pcOf 2, c.g.prod_count, c.g.cons_count, contents c.g.cbuffer)) =
        some (Pc.openWait, 1, 0, [1, 2, 3, 4, 5]) ∧
      (exec (Config.init 3) (staleSetup ++ openCancelled)).map
        (fun c => (c.pcOf 2, c.resultOf 2, c.g.prod_count, c.g.cons_count,
          is_empty_cbuffer_t c.g.cbuffer, contents c.g.cbuffer)) =
        some (Pc.ret, -EINTR, 0, 0, false, [1, 2, 3, 4, 5]) := by
  refine ⟨by rfl, by rfl⟩

/-- C9: `mtx` reaches 2. Without any signal, a reader that wakes at line 153 and
finds the stream ended executes `up(&mtx)` at line 161 without holding `mtx`;
with a signal, the open of `openInterruptedOnMtx` executes `up(&mtx)` at line 93
without holding `mtx`. -/
theorem mtx_exceeds_one :
    (exec (Config.init 3) wakeAtEndOfStream).map (fun c => (c.pcOf 0, c.resultOf 0, c.g.mtx)) =
        some (Pc.ret, 0, 2) ∧
      (exec (Config.init 2) (openSleepsOnMtx ++ openInterruptedOnMtx)).map (fun c => c.g.mtx) =
        some 2 := by
  decide

/-- C10: `insert_items_cbuffer_t` is reached with less free space than `len`.
Without any signal, once `mtx` is 2 two writers pass the test of line 207
together; after the first has inserted its 30 bytes the second stands at line
234 with `len = 30` and 20 free bytes, outside the buffer's contract; it goes on
and returns 30. -/
theorem insert_reached_without_space :
    (exec (Config.init 4) twoWritersRace).map
        (fun c => (c.pcOf 3, c.lenOf 3, nr_gaps_cbuffer_t c.g.cbuffer, c.g.cons_count)) =
        some (Pc.writeInsert, 30, 20, 2) ∧
      (exec (Config.init 4) (twoWritersRace ++ steps 3 3)).map
        (fun c => (c.pcOf 3, c.resultOf 3)) = some (Pc.ret, 30) := by
  decide

/-! ## The claims that hold -/

/-- C1 (as amended): round trip. For every byte sequence `b` of at most
`MAX_CHARS_KBUF` bytes, from a state with `prod_count = 1`, `cons_count = 1`, an
empty buffer of `MAX_ITEMS_CBUFFER` bytes, no waiters and `mtx` free, a
`fifoproc_write` of `b` with `*off <= 0` runs to its return without sleeping and
returns `b.length`; the `fifoproc_read` of `b.length` bytes that follows, with
`*off <= 0` and room for the bytes at the user pointer, runs to its return
without sleeping, returns `b.length`, delivers exactly `b` and leaves the buffer
empty. -/
theorem write_then_read_roundtrip (fuel : Nat) (g : Fifo) (b : List Byte) (uroom : Nat)
    (offw offr : Int) (hfuel : 7 ≤ fuel) (hn50 : b.length ≤ MAX_CHARS_KBUF)
    (hp : g.prod_count = 1) (hc : g.cons_count = 1)
    (hwf : WF g.cbuffer) (hcap : g.cbuffer.capacity = MAX_ITEMS_CBUFFER)
    (hempty : is_empty_cbuffer_t g.cbuffer = true)
    (hpw : g.nr_prod_waiting = 0) (hcw : g.nr_cons_waiting = 0) (hmtx : 0 < g.mtx)
    (hoffw : offw ≤ 0) (hoffr : offr ≤ 0) (hroom : b.length ≤ uroom) :
    (run fuel g (fifoproc_write b b.length offw)).2.pc = .ret ∧
      (run fuel g (fifoproc_write b b.length offw)).2.result = b.length ∧
      (run fuel (run fuel g (fifoproc_write b b.length offw)).1
          (fifoproc_read uroom b.length offr)).2.pc = .ret ∧
      (run fuel (run fuel g (fifoproc_write b b.length offw)).1
          (fifoproc_read uroom b.length offr)).2.result = b.length ∧
      (run fuel (run fuel g (fifoproc_write b b.length offw)).1
          (fifoproc_read uroom b.length offr)).2.out = b ∧
      is_empty_cbuffer_t (run fuel (run fuel g (fifoproc_write b b.length offw)).1
          (fifoproc_read uroom b.length offr)).1.cbuffer = true := by
  have he : g.cbuffer.count = 0 := by simpa [is_empty_cbuffer_t] using hempty
  obtain ⟨hout, hc2, hc1⟩ :=
    insert_remove_roundtrip g.cbuffer b hwf he (by rw [hcap]; exact hn50)
  have hw := write_fits_run g b offw hn50 (by rw [hc]; decide)
    (by simp only [nr_gaps_cbuffer_t, size_cbuffer_t, he, hcap]; exact hn50) hcw hmtx hoffw
  have hw2 : run fuel g (fifoproc_write b b.length offw) = run 7 g (fifoproc_write b b.length offw) :=
    run_ge _ _ _ _ (by rw [hw]) hfuel
  rw [hw2, hw]
  have hrd := read_available_run { g with cbuffer := insert_items_cbuffer_t g.cbuffer b b.length }
    b.length uroom offr hn50 (by simp [hp]) (by simp only [size_cbuffer_t, hc1]; exact le_refl _)
    hpw hmtx hoffr hroom
  have hrd2 : run fuel { g with cbuffer := insert_items_cbuffer_t g.cbuffer b b.length }
        (fifoproc_read uroom b.length offr) =
      run 7 { g with cbuffer := insert_items_cbuffer_t g.cbuffer b b.length }
        (fifoproc_read uroom b.length offr) :=
    run_ge _ _ _ _ (by rw [hrd]) hfuel
  simp only [hrd2, hrd]
  simp [is_empty_cbuffer_t, hc2, hout]

/-- Witness of C1 (as amended): the bytes 1, 2, 3 through `openedChannel`. -/
theorem write_then_read_roundtrip_witness :
    (run 7 openedChannel (fifoproc_write [1, 2, 3] 3 0)).2.pc = .ret ∧
      (run 7 openedChannel (fifoproc_write [1, 2, 3] 3 0)).2.result = 3 ∧
      (run 7 (run 7 openedChannel (fifoproc_write [1, 2, 3] 3 0)).1 (fifoproc_read 3 3 0)).2.pc = .ret ∧
      (run 7 (run 7 openedChannel (fifoproc_write [1, 2, 3] 3 0)).1 (fifoproc_read 3 3 0)).2.result = 3 ∧
      (run 7 (run 7 openedChannel (fifoproc_write [1, 2, 3] 3 0)).1 (fifoproc_read 3 3 0)).2.out =
        [1, 2, 3] ∧
      is_empty_cbuffer_t
        (run 7 (run 7 openedChannel (fifoproc_write [1, 2, 3] 3 0)).1 (fifoproc_read 3 3 0)).1.cbuffer =
        true :=
  write_then_read_roundtrip 7 openedChannel [1, 2, 3] 3 0 0 (by decide) (by decide) rfl rfl
    (create_wf 50 (by decide)) rfl rfl rfl rfl (by decide) (by decide) (by decide) (by decide)

/-- C1 (as stated) fails: on `openedChannel` (one producer, one consumer, empty
buffer, no waiters) a `fifoproc_write` of the 3 bytes 1, 2, 3 called with
`*off = 1` returns 0, not 3, and writes nothing (line 192). And after a write
of these bytes at offset 0, a `fifoproc_read` of 3 bytes whose user buffer
accepts only 2 returns 2 and delivers 1, 2 (line 183). -/
theorem roundtrip_fails_on_offset_or_short_buffer :
    run 7 openedChannel (fifoproc_write [1, 2, 3] 3 1) =
        (openedChannel, (fifoproc_write [1, 2, 3] 3 1).leave 0) ∧
      ((fifoproc_write [1, 2, 3] 3 1).leave 0).result ≠ 3 ∧
      (run 7 (run 7 openedChannel (fifoproc_write [1, 2, 3] 3 0)).1 (fifoproc_read 2 3 0)).2.result =
        2 ∧
      (run 7 (run 7 openedChannel (fifoproc_write [1, 2, 3] 3 0)).1 (fifoproc_read 2 3 0)).2.out =
        [1, 2] := by
  decide

/-- C3 (as amended): closing the last consumer breaks the blocked writers, when
the release gets `mtx`. From every state with `cons_count = 1`,
`nr_prod_waiting = k` and `mtx` free, where `ws` are the `k` producers asleep at
line 215 of `fifoproc_write`, the consumer's `fifoproc_release` returns 0 with
`cons_count = 0`, `nr_prod_waiting = 0` and `sem_prod` raised by `k`; the `k`
producers, resuming one after the other, all return `-EPIPE`, and the buffer is
as the release left it. (Holds for `k = 0` too.) -/
theorem release_last_consumer_breaks_writers (fuel : Nat) (g : Fifo) (ws : List Thread)
    (hfuel : 2 * ws.length + 6 ≤ fuel) (hcons : g.cons_count = 1)
    (hw : g.nr_prod_waiting = ws.length) (hblocked : ∀ w ∈ ws, w.pc = .writeWait)
    (hmtx : 0 < g.mtx) :
    (run fuel g (fifoproc_release true)).2 = (fifoproc_release true).leave 0 ∧
      (run fuel g (fifoproc_release true)).1.cons_count = 0 ∧
      (run fuel g (fifoproc_release true)).1.nr_prod_waiting = 0 ∧
      (run fuel g (fifoproc_release true)).1.sem_prod = g.sem_prod + ws.length ∧
      (resumeAll fuel (run fuel g (fifoproc_release true)).1 ws).2 =
        ws.map (fun w => w.leave (-EPIPE)) ∧
      (resumeAll fuel (run fuel g (fifoproc_release true)).1 ws).1.cbuffer =
        (run fuel g (fifoproc_release true)).1.cbuffer := by
  have hr := release_consumer_run ws.length g hcons hw hmtx
  have hr2 : run fuel g (fifoproc_release true) = run (2 * ws.length + 6) g (fifoproc_release true) :=
    run_ge _ _ _ _ (by rw [hr]; rfl) hfuel
  rw [hr2, hr]
  rw [writers_resume_broken fuel (by omega) ws _ hblocked rfl (by simp)]
  simp

/-- Witness of C3 (as amended): the state and the sleeping writer that the
schedule `writerBlocked` reaches. -/
theorem release_last_consumer_breaks_writers_witness :
    (run 8 writerBlockedState (fifoproc_release true)).2 = (fifoproc_release true).leave 0 ∧
      (run 8 writerBlockedState (fifoproc_release true)).1.cons_count = 0 ∧
      (run 8 writerBlockedState (fifoproc_release true)).1.nr_prod_waiting = 0 ∧
      (run 8 writerBlockedState (fifoproc_release true)).1.sem_prod =
        writerBlockedState.sem_prod + 1 ∧
      (resumeAll 8 (run 8 writerBlockedState (fifoproc_release true)).1 [blockedWriter]).2 =
        [blockedWriter.leave (-EPIPE)] ∧
      (resumeAll 8 (run 8 writerBlockedState (fifoproc_release true)).1 [blockedWriter]).1.cbuffer =
        (run 8 writerBlockedState (fifoproc_release true)).1.cbuffer :=
  release_last_consumer_breaks_writers 8 writerBlockedState [blockedWriter] (by decide) (by rfl)
    (by rfl) (by intro w hw; simp only [List.mem_singleton] at hw; subst hw; rfl) (by decide)

/-- C3 (as stated) fails: at the end of `writerBlocked`, `cons_count = 1` and one
producer sleeps at line 215 (`nr_prod_waiting = 1`). With `mtx` held by another
caller, the consumer's `fifoproc_release` sleeps at line 100; signalled there it
returns `-EINTR` (lines 100-102): `cons_count` is still 1, `nr_prod_waiting`
still 1, `sem_prod` still 0, and the writer still cannot move. -/
theorem release_interrupted_leaves_writer_asleep :
    (exec (Config.init 3) writerBlocked).map
        (fun c => (c.pcOf 1, c.g.cons_count, c.g.nr_prod_waiting)) = some (Pc.writeWait, 1, 1) ∧
      (exec (Config.init 3) (writerBlocked ++ releaseInterrupted)).map
        (fun c => (c.pcOf 0, c.resultOf 0, c.g.cons_count)) = some (Pc.ret, -EINTR, 1) ∧
      (exec (Config.init 3) (writerBlocked ++ releaseInterrupted)).map
        (fun c => (c.pcOf 1, c.g.nr_prod_waiting, c.g.sem_prod)) = some (Pc.writeWait, 1, 0) ∧
      exec (Config.init 3) (writerBlocked ++ releaseInterrupted ++ [Act.step 1 false]) = none := by
  decide

end Fifoproc
